import Mathlib

/-!
Verification of the DAS (data availability service) core in
`das/local_disk_das.go`: certificate issuance (`Store`), keyset resolution
(`KeysetFromHash`), storage-backend construction
(`NewStorageServiceFromStorageConfig`) and DAS construction
(`NewDASWithSeqInboxCaller`).

Bytes are lists of naturals; Go errors are strings (a Go `error` created by
`errors.New`/`fmt.Errorf` is identified by its message); fallible Go calls
return `Except Error`.  External collaborators (the BLS signature library,
Keccak-256, the batch-poster registry contract and the storage backends) are
opaque to the file under verification and enter the model as explicit
environment records, so theorems quantify over every possible behaviour of
those collaborators.  Calls the DAS makes into its storage backend are
additionally recorded in a trace, so "performs no backend write" is statable.
-/

namespace NitroDas

/-- A byte string (each entry is one byte value). -/
abbrev Bytes := List Nat

/-- A Go `error` value, identified by its message (`errors.New(msg)`). -/
abbrev Error := String

/-- A BLS private key, opaque to the code under verification. -/
abbrev PrivateKey := Nat

/-- A BLS public key, opaque to the code under verification. -/
abbrev PublicKey := Nat

/-- An account address, opaque to the code under verification. -/
abbrev Address := Nat

/-- `var ErrDasKeysetNotFound = errors.New("no such keyset")`. -/
def ErrDasKeysetNotFound : Error := "no such keyset"

/-- The 32 zero bytes: the Go zero value of a `[32]byte`. -/
def zero32 : Bytes := List.replicate 32 0

/-- Go `copy(dst[:], src)` into a zeroed `[32]byte`: the first 32 bytes of
`src`, the rest of the 32 slots keeping their zero value. -/
def copy32 (src : Bytes) : Bytes :=
  src.take 32 ++ List.replicate (32 - src.length) 0

/-- Big-endian serialization of a `uint64` (`binary.BigEndian.PutUint64`). -/
def u64be (n : Nat) : Bytes :=
  [n / 2 ^ 56 % 256, n / 2 ^ 48 % 256, n / 2 ^ 40 % 256, n / 2 ^ 32 % 256,
   n / 2 ^ 24 % 256, n / 2 ^ 16 % 256, n / 2 ^ 8 % 256, n % 256]

/-- `arbstate.DataAvailabilityCertificate`.  Field defaults are the Go zero
values, as produced by `c = &arbstate.DataAvailabilityCertificate{}`. -/
structure DataAvailabilityCertificate where
  KeysetHash : Bytes := zero32
  DataHash : Bytes := zero32
  Timeout : Nat := 0
  SignersMask : Nat := 0
  Sig : Bytes := []
  deriving Repr, DecidableEq

/-- Modelled from the spec: `SerializeSignableFields` (defined in the
`arbstate` package, outside the files under verification) is the canonical
serialization of exactly `(dataHash, timeout, signersMask)` — "Sign the
canonical serialization of `(dataHash, timeout, signersMask)`"; "keysetHash
itself is not covered by the signed payload". -/
def DataAvailabilityCertificate.SerializeSignableFields
    (c : DataAvailabilityCertificate) : Bytes :=
  c.DataHash ++ u64be c.Timeout ++ u64be c.SignersMask

/-- `arbstate.DataAvailabilityKeyset`: the committee description this
single-node DAS publishes. -/
structure DataAvailabilityKeyset where
  AssumedHonest : Nat
  PubKeys : List PublicKey
  deriving Repr, DecidableEq

/-- Modelled from the spec: the `StorageService` interface (defined outside
the files under verification) — "store bytes keyed by content hash with an
expiration hint, retrieve bytes by hash, flush/sync, health-check".  Each
field gives the backend's response to one call. -/
structure StorageService where
  put : Bytes → Nat → Except Error Unit
  sync : Except Error Unit
  getByHash : Bytes → Except Error Bytes
  healthCheck : Except Error Unit

/-- One call the DAS makes into its storage backend; `DAS.Store` and
`DAS.KeysetFromHash` return the list of calls they performed, in order. -/
inductive BackendCall where
  | put (message : Bytes) (timeout : Nat)
  | sync
  | getByHash (hash : Bytes)
  deriving Repr, DecidableEq

/-- Modelled from the spec: `BatchPosterVerifier` (defined outside the files
under verification) — "answers: is this address currently an authorized batch
poster? by calling a read-only method on an external ledger contract". -/
structure BatchPosterVerifier where
  IsBatchPoster : Address → Except Error Bool

/-- `bridgegen.SequencerInboxCaller`, opaque: all the DAS core needs from it
is the read-only batch-poster query it backs. -/
structure SequencerInboxCaller where
  isBatchPoster : Address → Except Error Bool

/-- Modelled from the spec: `NewBatchPosterVerifier` wraps the sequencer-inbox
caller into the authorizer capability. -/
def NewBatchPosterVerifier (caller : SequencerInboxCaller) : BatchPosterVerifier :=
  ⟨caller.isBatchPoster⟩

/-- The package-level external functions `Store` calls: `crypto.Keccak256`,
`blsSignatures.SignMessage` and `DasRecoverSigner`, opaque to the code under
verification. -/
structure CryptoEnv where
  keccak256 : Bytes → Bytes
  signMessage : PrivateKey → Bytes → Except Error Bytes
  dasRecoverSigner : Bytes → Nat → Bytes → Except Error Address

/-- Opaque per-backend configuration blobs (`genericconf.S3Config`,
`RedisConfig`, `BigCacheConfig`): the DAS core only threads them through. -/
abbrev S3Config := Nat

abbrev RedisConfig := Nat

abbrev BigCacheConfig := Nat

/-- `LocalConfig`. -/
structure LocalConfig where
  DataDir : String
  deriving Repr, DecidableEq

/-- `StorageConfig`. -/
structure StorageConfig where
  KeyDir : String
  PrivKey : String
  LocalConfig : LocalConfig
  DiscardAfterTimeout : Bool
  S3Config : S3Config
  RedisConfig : RedisConfig
  BigCacheConfig : BigCacheConfig
  AllowGenerateKeys : Bool
  StorageType : String
  deriving Repr, DecidableEq

/-- The `DAS` aggregate. -/
structure DAS where
  config : StorageConfig
  privKey : PrivateKey
  keysetHash : Bytes
  keysetBytes : Bytes
  storageService : StorageService
  bpVerifier : Option BatchPosterVerifier

/-- The authorization prologue of `DAS.Store`: when a batch-poster verifier is
configured, recover the signer and check it with `IsBatchPoster`, failing with
`errors.New("store request not properly signed")` when the check is negative;
when none is configured, pass. -/
def DAS.storeAuthCheck (env : CryptoEnv) (d : DAS) (message : Bytes)
    (timeout : Nat) (sig : Bytes) : Except Error Unit :=
  match d.bpVerifier with
  | none => .ok ()
  | some bpVerifier =>
    match env.dasRecoverSigner message timeout sig with
    | .error e => .error e
    | .ok actualSigner =>
      match bpVerifier.IsBatchPoster actualSigner with
      | .error e => .error e
      | .ok isBatchPoster =>
        if !isBatchPoster then .error "store request not properly signed"
        else .ok ()

/-- The unsigned certificate `Store` has built just before signing
(`c = &arbstate.DataAvailabilityCertificate{}`; `copy(c.DataHash[:],
crypto.Keccak256(message))`; `c.Timeout = timeout`; `c.SignersMask = 1`):
data hash of the message, the caller's timeout, signers mask 1, every other
field still at its Go zero value. -/
def storeUnsignedCert (env : CryptoEnv) (message : Bytes) (timeout : Nat) :
    DataAvailabilityCertificate :=
  { DataHash := copy32 (env.keccak256 message), Timeout := timeout,
    SignersMask := 1 }

/-- `func (d *DAS) Store(ctx, message, timeout, sig)`: authorize, hash, sign
the signable fields, `Put`, `Sync`, then attach the keyset hash and return the
certificate.  Besides the Go result the model returns the trace of backend
calls performed. -/
def DAS.Store (env : CryptoEnv) (d : DAS) (message : Bytes) (timeout : Nat)
    (sig : Bytes) :
    Except Error DataAvailabilityCertificate × List BackendCall :=
  match d.storeAuthCheck env message timeout sig with
  | .error e => (.error e, [])
  | .ok () =>
    match env.signMessage d.privKey
        (storeUnsignedCert env message timeout).SerializeSignableFields with
    | .error e => (.error e, [])
    | .ok s =>
      match d.storageService.put message timeout with
      | .error e => (.error e, [.put message timeout])
      | .ok () =>
        match d.storageService.sync with
        | .error e => (.error e, [.put message timeout, .sync])
        | .ok () =>
          (.ok { storeUnsignedCert env message timeout with
                 Sig := s, KeysetHash := d.keysetHash },
           [.put message timeout, .sync])

/-- `func (d *DAS) GetByHash(ctx, hash)`: pure delegation to the backend. -/
def DAS.GetByHash (d : DAS) (hash : Bytes) : Except Error Bytes :=
  d.storageService.getByHash hash

/-- `func (d *DAS) KeysetFromHash(ctx, ksHash)`: answer from the cached local
keyset when the hash matches, else delegate to `GetByHash`, collapsing every
backend failure into `ErrDasKeysetNotFound`.  The second component is the
trace of backend calls performed. -/
def DAS.KeysetFromHash (d : DAS) (ksHash : Bytes) :
    Except Error Bytes × List BackendCall :=
  if ksHash = d.keysetHash then (.ok d.keysetBytes, [])
  else
    match d.GetByHash ksHash with
    | .ok contents => (.ok contents, [.getByHash ksHash])
    | .error _ => (.error ErrDasKeysetNotFound, [.getByHash ksHash])

/-- `func (d *DAS) CurrentKeysetBytes(ctx)`. -/
def DAS.CurrentKeysetBytes (d : DAS) : Except Error Bytes :=
  .ok d.keysetBytes

/-- `func (d *DAS) HealthCheck(ctx)`: delegation to the backend. -/
def DAS.HealthCheck (d : DAS) : Except Error Unit :=
  d.storageService.healthCheck

/-! ## Storage backend construction -/

/-- The shape of a composed storage backend: which constructor built it, with
which configuration, wrapped over which inner backend. -/
inductive StorageServiceDesc where
  | localDisk (dataDir : String)
  | db (dataDir : String) (discardAfterTimeout : Bool)
  | s3 (cfg : S3Config) (discardAfterTimeout : Bool)
  | redis (cfg : RedisConfig) (inner : StorageServiceDesc)
  | bigCache (cfg : BigCacheConfig) (inner : StorageServiceDesc)
  deriving Repr, DecidableEq

/-- Environmental failures of the fallible backend constructors (opening the
database, building the object-store or cache clients): `none` means the
constructor succeeds, `some e` that it fails with `e`. -/
structure StorageInitEnv where
  dbInitError : Option Error
  s3InitError : Option Error
  redisInitError : Option Error
  bigCacheInitError : Option Error

/-- Modelled from the spec: `NewLocalDiskStorageService` (implementation
outside the files under verification) builds the disk-only backend from the
local data directory; its call site in `NewStorageServiceFromStorageConfig`
shows it cannot fail. -/
def NewLocalDiskStorageService (dataDir : String) : StorageServiceDesc :=
  .localDisk dataDir

/-- Modelled from the spec: `NewDBStorageService` (implementation outside the
files under verification) builds the local-database backend, or fails for
environmental reasons. -/
def NewDBStorageService (env : StorageInitEnv) (dataDir : String)
    (discardAfterTimeout : Bool) : Except Error StorageServiceDesc :=
  match env.dbInitError with
  | some e => .error e
  | none => .ok (.db dataDir discardAfterTimeout)

/-- Modelled from the spec: `NewS3StorageService` (implementation outside the
files under verification) builds the object-store backend, or fails for
environmental reasons. -/
def NewS3StorageService (env : StorageInitEnv) (cfg : S3Config)
    (discardAfterTimeout : Bool) : Except Error StorageServiceDesc :=
  match env.s3InitError with
  | some e => .error e
  | none => .ok (.s3 cfg discardAfterTimeout)

/-- Modelled from the spec: `NewRedisStorageService` (implementation outside
the files under verification) builds the cache tier wrapped over an inner
backend, or fails for environmental reasons. -/
def NewRedisStorageService (env : StorageInitEnv) (cfg : RedisConfig)
    (inner : StorageServiceDesc) : Except Error StorageServiceDesc :=
  match env.redisInitError with
  | some e => .error e
  | none => .ok (.redis cfg inner)

/-- Modelled from the spec: `NewBigCacheStorageService` (implementation
outside the files under verification) builds the in-process memory-cache tier
wrapped over an inner backend, or fails for environmental reasons. -/
def NewBigCacheStorageService (env : StorageInitEnv) (cfg : BigCacheConfig)
    (inner : StorageServiceDesc) : Except Error StorageServiceDesc :=
  match env.bigCacheInitError with
  | some e => .error e
  | none => .ok (.bigCache cfg inner)

/-- `func NewStorageServiceFromStorageConfig(ctx, config)`: the switch on
`config.StorageType`.  (The goroutine that closes the db backend on context
cancellation is concurrency outside this model.) -/
def NewStorageServiceFromStorageConfig (env : StorageInitEnv)
    (config : StorageConfig) : Except Error StorageServiceDesc :=
  match config.StorageType with
  | "" => .ok (NewLocalDiskStorageService config.LocalConfig.DataDir)
  | "files" => .ok (NewLocalDiskStorageService config.LocalConfig.DataDir)
  | "db" =>
    NewDBStorageService env config.LocalConfig.DataDir config.DiscardAfterTimeout
  | "s3" => NewS3StorageService env config.S3Config config.DiscardAfterTimeout
  | "redis" =>
    match NewS3StorageService env config.S3Config config.DiscardAfterTimeout with
    | .error e => .error e
    | .ok s3StorageService =>
      NewRedisStorageService env config.RedisConfig s3StorageService
  | "bigCache" =>
    match NewS3StorageService env config.S3Config config.DiscardAfterTimeout with
    | .error e => .error e
    | .ok s3StorageService =>
      match NewRedisStorageService env config.RedisConfig s3StorageService with
      | .error e => .error e
      | .ok redisStorageService =>
        NewBigCacheStorageService env config.BigCacheConfig redisStorageService
  | other => .error ("Storage service type not recognized: " ++ other)

/-! ## DAS construction -/

/-- The outcome of `ReadKeysFromFile`: success, a failure for which
`os.IsNotExist` holds, or any other failure. -/
inductive KeyReadError where
  | notExist
  | other (e : Error)
  deriving Repr, DecidableEq

/-- The external key-management functions `NewDASWithSeqInboxCaller` calls
(`DecodeBase64BLSPrivateKey`, `ReadKeysFromFile`, `GenerateAndStoreKeys`,
`blsSignatures.PublicKeyFromPrivateKey`, `keyset.Serialize`, `keyset.Hash`),
opaque to the code under verification. -/
structure KeyEnv where
  decodeBase64BLSPrivateKey : String → Except Error PrivateKey
  readKeysFromFile : String → Except KeyReadError (PublicKey × PrivateKey)
  generateAndStoreKeys : String → Except Error (PublicKey × PrivateKey)
  publicKeyFromPrivateKey : PrivateKey → Except Error PublicKey
  serializeKeyset : DataAvailabilityKeyset → Except Error Bytes
  hashKeyset : DataAvailabilityKeyset → Except Error Bytes

/-- The key-acquisition prologue of `NewDASWithSeqInboxCaller`: decode the
inline `priv-key` when it is non-empty, otherwise read the keypair from
`key-dir`, generating one there when the files do not exist and
`allow-generate-keys` is set. -/
def acquirePrivKey (env : KeyEnv) (config : StorageConfig) :
    Except Error PrivateKey :=
  if config.PrivKey.length != 0 then
    match env.decodeBase64BLSPrivateKey config.PrivKey with
    | .error e => .error ("'priv-key' was invalid: " ++ e)
    | .ok privKey => .ok privKey
  else
    match env.readKeysFromFile config.KeyDir with
    | .ok (_, privKey) => .ok privKey
    | .error .notExist =>
      if config.AllowGenerateKeys then
        match env.generateAndStoreKeys config.KeyDir with
        | .ok (_, privKey) => .ok privKey
        | .error e => .error e
      else
        .error ("Required BLS keypair did not exist at " ++ config.KeyDir)
    | .error (.other e) => .error e

/-- The one-member keyset this node publishes:
`&arbstate.DataAvailabilityKeyset{AssumedHonest: 1, PubKeys: []blsSignatures.PublicKey{publicKey}}`. -/
def dasKeyset (publicKey : PublicKey) : DataAvailabilityKeyset :=
  { AssumedHonest := 1, PubKeys := [publicKey] }

/-- `func NewDASWithSeqInboxCaller(ctx, config, seqInboxCaller,
storageService)`: acquire the signing key, derive the public key, build and
serialize the one-member keyset, hash it, and assemble the DAS value. -/
def NewDASWithSeqInboxCaller (env : KeyEnv) (config : StorageConfig)
    (seqInboxCaller : Option SequencerInboxCaller)
    (storageService : StorageService) : Except Error DAS :=
  match acquirePrivKey env config with
  | .error e => .error e
  | .ok privKey =>
    match env.publicKeyFromPrivateKey privKey with
    | .error e => .error e
    | .ok publicKey =>
      match env.serializeKeyset (dasKeyset publicKey) with
      | .error e => .error e
      | .ok ksBytes =>
        match env.hashKeyset (dasKeyset publicKey) with
        | .error e => .error e
        | .ok ksHashBuf =>
          .ok { config := config, privKey := privKey,
                keysetHash := copy32 ksHashBuf, keysetBytes := ksBytes,
                storageService := storageService,
                bpVerifier := seqInboxCaller.map NewBatchPosterVerifier }

/-! ## Operation sequences over one DAS value

The Go methods all take the receiver `*DAS` and never assign to its fields.
`DAS.runOp` makes that explicit: it returns the receiver the method leaves
behind together with the call's result, and `DAS.runOps` threads the receiver
through a whole sequence of calls. -/

/-- One call into the DAS service interface. -/
inductive DasOp where
  | store (message : Bytes) (timeout : Nat) (sig : Bytes)
  | getByHash (hash : Bytes)
  | keysetFromHash (ksHash : Bytes)
  | currentKeysetBytes
  | healthCheck

/-- The result of one `DasOp`. -/
inductive DasOpResult where
  | stored (r : Except Error DataAvailabilityCertificate)
  | fetched (r : Except Error Bytes)
  | keyset (r : Except Error Bytes)
  | current (r : Except Error Bytes)
  | health (r : Except Error Unit)

/-- Run one operation: each branch is the corresponding Go method, which
reads but never writes the receiver's fields, so the receiver it leaves
behind is `d` itself. -/
def DAS.runOp (env : CryptoEnv) (d : DAS) : DasOp → DAS × DasOpResult
  | .store message timeout sig => (d, .stored (d.Store env message timeout sig).1)
  | .getByHash hash => (d, .fetched (d.GetByHash hash))
  | .keysetFromHash ksHash => (d, .keyset (d.KeysetFromHash ksHash).1)
  | .currentKeysetBytes => (d, .current d.CurrentKeysetBytes)
  | .healthCheck => (d, .health d.HealthCheck)

/-- Run a sequence of operations, threading the receiver through. -/
def DAS.runOps (env : CryptoEnv) (d : DAS) :
    List DasOp → DAS × List DasOpResult
  | [] => (d, [])
  | op :: rest =>
    let p := d.runOp env op
    let q := DAS.runOps env p.1 rest
    (q.1, p.2 :: q.2)

/-! ## Concrete instances used by the witnesses -/

/-- A backend on which every call succeeds; `getByHash` answers `[7]`. -/
def sampleStorage : StorageService :=
  { put := fun _ _ => .ok (), sync := .ok (),
    getByHash := fun _ => .ok [7], healthCheck := .ok () }

/-- A backend whose `Put` fails with "disk full". -/
def failPutStorage : StorageService :=
  { put := fun _ _ => .error "disk full", sync := .ok (),
    getByHash := fun _ => .error "not found", healthCheck := .ok () }

/-- A backend whose `Put` succeeds and whose `Sync` fails. -/
def failSyncStorage : StorageService :=
  { put := fun _ _ => .ok (), sync := .error "sync failed",
    getByHash := fun _ => .error "not found", healthCheck := .ok () }

/-- Concrete crypto primitives: a stand-in 32-byte content hash, a
deterministic signature prepending the key, and signer recovery returning the
signature length. -/
def sampleCrypto : CryptoEnv :=
  { keccak256 := fun b => copy32 b,
    signMessage := fun k p => .ok (k :: p),
    dasRecoverSigner := fun _ _ s => .ok s.length }

/-- A concrete configuration. -/
def sampleConfig : StorageConfig :=
  { KeyDir := "keys", PrivKey := "", LocalConfig := ⟨"data"⟩,
    DiscardAfterTimeout := false, S3Config := 0, RedisConfig := 0,
    BigCacheConfig := 0, AllowGenerateKeys := false, StorageType := "files" }

/-- A concrete DAS with no batch-poster verifier and an all-succeeding
backend. -/
def sampleDAS : DAS :=
  { config := sampleConfig, privKey := 5,
    keysetHash := List.replicate 32 1, keysetBytes := [9, 9],
    storageService := sampleStorage, bpVerifier := none }

/-- An authorizer that reports every address as not a batch poster. -/
def rejectVerifier : BatchPosterVerifier := ⟨fun _ => .ok false⟩

/-- `sampleDAS` gated by `rejectVerifier`. -/
def gatedDAS : DAS := { sampleDAS with bpVerifier := some rejectVerifier }

/-- `sampleDAS` over the put-failing backend. -/
def failPutDAS : DAS := { sampleDAS with storageService := failPutStorage }

/-- `sampleDAS` over the sync-failing backend. -/
def failSyncDAS : DAS := { sampleDAS with storageService := failSyncStorage }

/-! ## Helper lemmas -/

theorem copy32_of_length_32 (b : Bytes) (h : b.length = 32) : copy32 b = b := by
  simp [copy32, h, List.take_of_length_le, Nat.le_of_eq h]

/-- Inversion of a successful `Store`: the authorization check, the signing
step, `Put` and `Sync` all succeeded, and the returned certificate is the
unsigned certificate completed with the produced signature and this node's
keyset hash. -/
theorem DAS.store_ok_inversion (env : CryptoEnv) (d : DAS) (message : Bytes)
    (timeout : Nat) (sig : Bytes) (c : DataAvailabilityCertificate)
    (hok : (d.Store env message timeout sig).1 = .ok c) :
    d.storeAuthCheck env message timeout sig = .ok () ∧
    ∃ s, env.signMessage d.privKey
          (storeUnsignedCert env message timeout).SerializeSignableFields = .ok s ∧
      d.storageService.put message timeout = .ok () ∧
      d.storageService.sync = .ok () ∧
      c = { storeUnsignedCert env message timeout with
            Sig := s, KeysetHash := d.keysetHash } := by
  unfold DAS.Store at hok
  cases hauth : d.storeAuthCheck env message timeout sig with
  | error e => rw [hauth] at hok; simp at hok
  | ok u =>
    cases u
    rw [hauth] at hok
    cases hsig : env.signMessage d.privKey
        (storeUnsignedCert env message timeout).SerializeSignableFields with
    | error e => rw [hsig] at hok; simp at hok
    | ok s =>
      rw [hsig] at hok
      cases hput : d.storageService.put message timeout with
      | error e => rw [hput] at hok; simp at hok
      | ok u' =>
        cases u'
        rw [hput] at hok
        cases hsync : d.storageService.sync with
        | error e => rw [hsync] at hok; simp at hok
        | ok u'' =>
          cases u''
          rw [hsync] at hok
          simp only [Except.ok.injEq] at hok
          exact ⟨rfl, s, rfl, rfl, rfl, hok.symm⟩

/-! ## Claim theorems -/

/-- C1: for every message, timeout and signature, if the backend's `Put` or
the subsequent `Sync` returns an error, `Store` returns no certificate and
surfaces that backend error unchanged; a certificate is returned only after
both `Put` and `Sync` have succeeded. -/
theorem store_no_certificate_on_backend_failure (env : CryptoEnv) (d : DAS)
    (message : Bytes) (timeout : Nat) (sig : Bytes) :
    (∀ c, (d.Store env message timeout sig).1 = .ok c →
      d.storageService.put message timeout = .ok () ∧
      d.storageService.sync = .ok ()) ∧
    (∀ e, d.storeAuthCheck env message timeout sig = .ok () →
      (∃ s, env.signMessage d.privKey
        (storeUnsignedCert env message timeout).SerializeSignableFields = .ok s) →
      d.storageService.put message timeout = .error e →
      (d.Store env message timeout sig).1 = .error e) ∧
    (∀ e, d.storeAuthCheck env message timeout sig = .ok () →
      (∃ s, env.signMessage d.privKey
        (storeUnsignedCert env message timeout).SerializeSignableFields = .ok s) →
      d.storageService.put message timeout = .ok () →
      d.storageService.sync = .error e →
      (d.Store env message timeout sig).1 = .error e) := by
  refine ⟨?_, ?_, ?_⟩
  · intro c hok
    obtain ⟨-, s, -, hput, hsync, -⟩ :=
      DAS.store_ok_inversion env d message timeout sig c hok
    exact ⟨hput, hsync⟩
  · rintro e hauth ⟨s, hs⟩ hput
    simp [DAS.Store, hauth, hs, hput]
  · rintro e hauth ⟨s, hs⟩ hput hsync
    simp [DAS.Store, hauth, hs, hput, hsync]

/-- C1 witness: over a backend whose `Put` fails with "disk full", `Store`
surfaces exactly that error. -/
theorem store_no_certificate_on_backend_failure_witness :
    (failPutDAS.Store sampleCrypto [1] 5 []).1 = .error "disk full" :=
  (store_no_certificate_on_backend_failure sampleCrypto failPutDAS [1] 5 []).2.1
    "disk full" rfl ⟨_, rfl⟩ rfl

/-- C2: when a batch-poster verifier is configured, `Store` fails — returning
no certificate and performing no backend `Put` or `Sync` (empty backend
trace) — whenever signer recovery fails, or `IsBatchPoster` errors, or it
reports the recovered signer is not a batch poster. -/
theorem store_rejects_unauthorized (env : CryptoEnv) (d : DAS)
    (message : Bytes) (timeout : Nat) (sig : Bytes) (v : BatchPosterVerifier)
    (hbp : d.bpVerifier = some v) :
    (∀ e, env.dasRecoverSigner message timeout sig = .error e →
      d.Store env message timeout sig = (.error e, [])) ∧
    (∀ a e, env.dasRecoverSigner message timeout sig = .ok a →
      v.IsBatchPoster a = .error e →
      d.Store env message timeout sig = (.error e, [])) ∧
    (∀ a, env.dasRecoverSigner message timeout sig = .ok a →
      v.IsBatchPoster a = .ok false →
      d.Store env message timeout sig =
        (.error "store request not properly signed", [])) := by
  refine ⟨?_, ?_, ?_⟩ <;> intros <;>
    simp_all [DAS.Store, DAS.storeAuthCheck, hbp]

/-- C2 witness: under an authorizer that reports every address as not a batch
poster, `Store` fails with the unauthorized error and an empty backend
trace. -/
theorem store_rejects_unauthorized_witness :
    gatedDAS.Store sampleCrypto [1] 5 [] =
      (.error "store request not properly signed", []) :=
  (store_rejects_unauthorized sampleCrypto gatedDAS [1] 5 [] rejectVerifier
    rfl).2.2 0 rfl rfl

/-- C3: every certificate returned by a successful `Store` has `DataHash`
equal to the 32-byte content hash of the message, `Timeout` equal to the
caller-supplied timeout, `SignersMask` equal to 1 and `KeysetHash` equal to
this node's keyset hash. -/
theorem store_certificate_fields (env : CryptoEnv) (d : DAS) (message : Bytes)
    (timeout : Nat) (sig : Bytes) (c : DataAvailabilityCertificate)
    (hok : (d.Store env message timeout sig).1 = .ok c) :
    c.DataHash = copy32 (env.keccak256 message) ∧
    ((env.keccak256 message).length = 32 →
      c.DataHash = env.keccak256 message) ∧
    c.Timeout = timeout ∧ c.SignersMask = 1 ∧ c.KeysetHash = d.keysetHash := by
  obtain ⟨-, s, -, -, -, hc⟩ :=
    DAS.store_ok_inversion env d message timeout sig c hok
  subst hc
  refine ⟨rfl, ?_, rfl, rfl, rfl⟩
  intro hlen
  simp [storeUnsignedCert, copy32_of_length_32 _ hlen]

/-- The concrete certificate `sampleDAS` returns for `Store [1] 5 []`. -/
def sampleStoredCert : DataAvailabilityCertificate :=
  { storeUnsignedCert sampleCrypto [1] 5 with
    Sig := 5 :: (storeUnsignedCert sampleCrypto [1] 5).SerializeSignableFields,
    KeysetHash := sampleDAS.keysetHash }

/-- C3 witness: the concrete certificate returned on an all-succeeding
backend carries the caller's timeout, signers mask 1 and the node's keyset
hash. -/
theorem store_certificate_fields_witness :
    sampleStoredCert.Timeout = 5 ∧ sampleStoredCert.SignersMask = 1 ∧
    sampleStoredCert.KeysetHash = sampleDAS.keysetHash :=
  (store_certificate_fields sampleCrypto sampleDAS [1] 5 []
    sampleStoredCert rfl).2.2

/-- C4: the signature of every certificate returned by `Store` is produced
with the node's private key over exactly the serialized fields
`(dataHash, timeout, signersMask)`; the `KeysetHash` is not part of the
signed payload (it is still at its zero value when the signature is
computed, and the serialization does not depend on it), and hence the
signature verifies, over exactly those fields, under any verifier that
accepts this key's signatures. -/
theorem store_signature_covers_signable_fields (env : CryptoEnv) (d : DAS)
    (message : Bytes) (timeout : Nat) (sig : Bytes)
    (c : DataAvailabilityCertificate) (verify : Bytes → Bytes → Bool)
    (hok : (d.Store env message timeout sig).1 = .ok c)
    (hverify : ∀ payload s, env.signMessage d.privKey payload = .ok s →
      verify payload s = true) :
    env.signMessage d.privKey
      (storeUnsignedCert env message timeout).SerializeSignableFields =
      .ok c.Sig ∧
    (storeUnsignedCert env message timeout).KeysetHash = zero32 ∧
    c.SerializeSignableFields =
      (storeUnsignedCert env message timeout).SerializeSignableFields ∧
    (∀ c₁ c₂ : DataAvailabilityCertificate, c₁.DataHash = c₂.DataHash →
      c₁.Timeout = c₂.Timeout → c₁.SignersMask = c₂.SignersMask →
      c₁.SerializeSignableFields = c₂.SerializeSignableFields) ∧
    verify c.SerializeSignableFields c.Sig = true := by
  obtain ⟨-, s, hs, -, -, hc⟩ :=
    DAS.store_ok_inversion env d message timeout sig c hok
  subst hc
  refine ⟨hs, rfl, rfl, ?_, ?_⟩
  · intro c₁ c₂ h1 h2 h3
    simp [DataAvailabilityCertificate.SerializeSignableFields, h1, h2, h3]
  · exact hverify _ _ hs

/-- C4 witness: with the deterministic sample signature scheme, the returned
certificate's signature verifies over its signable fields. -/
theorem store_signature_covers_signable_fields_witness :
    decide (sampleStoredCert.Sig =
      5 :: sampleStoredCert.SerializeSignableFields) = true :=
  (store_signature_covers_signable_fields sampleCrypto sampleDAS [1] 5 []
    sampleStoredCert (fun payload s => decide (s = 5 :: payload)) rfl
    (fun payload s h => by
      simp only [sampleCrypto, Except.ok.injEq] at h
      simp [← h, sampleDAS])).2.2.2.2

/-- C5: for the node's own keyset hash, `KeysetFromHash` returns exactly the
keyset bytes serialized at construction, with no error and without invoking
the storage backend, whatever the backend's behaviour. -/
theorem keysetFromHash_local_hit (d : DAS) :
    d.KeysetFromHash d.keysetHash = (.ok d.keysetBytes, []) := by
  simp [DAS.KeysetFromHash]

/-- C5 witness: the local hit on the concrete `sampleDAS`. -/
theorem keysetFromHash_local_hit_witness :
    sampleDAS.KeysetFromHash sampleDAS.keysetHash =
      (.ok sampleDAS.keysetBytes, []) :=
  keysetFromHash_local_hit sampleDAS

/-- C6: for every other hash, `KeysetFromHash` delegates to the backend's
`GetByHash`; success is returned unchanged, and any backend error whatsoever
is replaced by the uniform `ErrDasKeysetNotFound`. -/
theorem keysetFromHash_delegates_nonlocal (d : DAS) (h : Bytes)
    (hne : h ≠ d.keysetHash) :
    (∀ b, d.storageService.getByHash h = .ok b →
      d.KeysetFromHash h = (.ok b, [.getByHash h])) ∧
    (∀ e, d.storageService.getByHash h = .error e →
      d.KeysetFromHash h = (.error ErrDasKeysetNotFound, [.getByHash h])) := by
  constructor
  · intro b hb; simp [DAS.KeysetFromHash, DAS.GetByHash, hne, hb]
  · intro e he; simp [DAS.KeysetFromHash, DAS.GetByHash, hne, he]

/-- C6 witness: a non-local hash is answered by the backend's bytes, and on a
failing backend by `ErrDasKeysetNotFound`. -/
theorem keysetFromHash_delegates_nonlocal_witness :
    sampleDAS.KeysetFromHash [5] = (.ok [7], [.getByHash [5]]) ∧
    failPutDAS.KeysetFromHash [5] =
      (.error ErrDasKeysetNotFound, [.getByHash [5]]) :=
  ⟨(keysetFromHash_delegates_nonlocal sampleDAS [5] (by decide)).1 [7] rfl,
   (keysetFromHash_delegates_nonlocal failPutDAS [5] (by decide)).2
     "not found" rfl⟩

/-- C10: for a hash that is not the local keyset hash, `KeysetFromHash`
returns whatever bytes the backend yields without checking that their
content hash equals the requested hash: it succeeds even when
`keccak256 b ≠ h`. -/
theorem keysetFromHash_no_content_check (env : CryptoEnv) (d : DAS)
    (h b : Bytes) (hne : h ≠ d.keysetHash)
    (hget : d.storageService.getByHash h = .ok b)
    (_hhash : env.keccak256 b ≠ h) :
    (d.KeysetFromHash h).1 = .ok b := by
  simp [DAS.KeysetFromHash, DAS.GetByHash, hne, hget]

/-- C10 witness: `sampleDAS` answers the query `[5]` with `[7]`, whose sample
content hash differs from `[5]`. -/
theorem keysetFromHash_no_content_check_witness :
    (sampleDAS.KeysetFromHash [5]).1 = .ok [7] :=
  keysetFromHash_no_content_check sampleCrypto sampleDAS [5] [7] (by decide)
    rfl (by decide)

/-- A storage-construction environment on which every backend constructor
succeeds. -/
def sampleInitEnv : StorageInitEnv :=
  { dbInitError := none, s3InitError := none, redisInitError := none,
    bigCacheInitError := none }

/-- `sampleConfig` with an unrecognized storage type. -/
def bogusConfig : StorageConfig := { sampleConfig with StorageType := "bogus" }

/-- C7: storage backend construction is a closed dispatch on the
storage-type string: "files" yields the disk store; "db", "s3", "redis" and
"bigCache" yield, when construction succeeds, the local database store, the
object store, the cache over the object store, and the memory cache over the
cache over the object store respectively; any other non-empty name yields an
error at construction time. -/
theorem storage_service_dispatch (env : StorageInitEnv)
    (config : StorageConfig) :
    (config.StorageType = "files" →
      NewStorageServiceFromStorageConfig env config =
        .ok (.localDisk config.LocalConfig.DataDir)) ∧
    (config.StorageType = "db" → ∀ s,
      NewStorageServiceFromStorageConfig env config = .ok s →
      s = .db config.LocalConfig.DataDir config.DiscardAfterTimeout) ∧
    (config.StorageType = "s3" → ∀ s,
      NewStorageServiceFromStorageConfig env config = .ok s →
      s = .s3 config.S3Config config.DiscardAfterTimeout) ∧
    (config.StorageType = "redis" → ∀ s,
      NewStorageServiceFromStorageConfig env config = .ok s →
      s = .redis config.RedisConfig
            (.s3 config.S3Config config.DiscardAfterTimeout)) ∧
    (config.StorageType = "bigCache" → ∀ s,
      NewStorageServiceFromStorageConfig env config = .ok s →
      s = .bigCache config.BigCacheConfig
            (.redis config.RedisConfig
              (.s3 config.S3Config config.DiscardAfterTimeout))) ∧
    (config.StorageType ∉ ["", "files", "db", "s3", "redis", "bigCache"] →
      NewStorageServiceFromStorageConfig env config =
        .error ("Storage service type not recognized: " ++
          config.StorageType)) := by
  refine ⟨?_, ?_, ?_, ?_, ?_, ?_⟩
  · intro h
    simp [NewStorageServiceFromStorageConfig, h, NewLocalDiskStorageService]
  · intro h s hs
    cases hdb : env.dbInitError <;>
      simp_all [NewStorageServiceFromStorageConfig, NewDBStorageService]
  · intro h s hs
    cases hs3 : env.s3InitError <;>
      simp_all [NewStorageServiceFromStorageConfig, NewS3StorageService]
  · intro h s hs
    cases hs3 : env.s3InitError <;>
      cases hredis : env.redisInitError <;>
        simp_all [NewStorageServiceFromStorageConfig, NewS3StorageService,
          NewRedisStorageService]
  · intro h s hs
    cases hs3 : env.s3InitError <;>
      cases hredis : env.redisInitError <;>
        cases hbig : env.bigCacheInitError <;>
          simp_all [NewStorageServiceFromStorageConfig, NewS3StorageService,
            NewRedisStorageService, NewBigCacheStorageService]
  · intro h
    unfold NewStorageServiceFromStorageConfig
    split <;> simp_all

/-- C7 witness: the unrecognized name "bogus" fails at construction. -/
theorem storage_service_dispatch_witness :
    NewStorageServiceFromStorageConfig sampleInitEnv bogusConfig =
      .error ("Storage service type not recognized: " ++ "bogus") :=
  (storage_service_dispatch sampleInitEnv bogusConfig).2.2.2.2.2 (by decide)

/-- If key acquisition fails, `NewDASWithSeqInboxCaller` fails with the same
error. -/
theorem NewDAS_of_acquire_error (env : KeyEnv) (config : StorageConfig)
    (sic : Option SequencerInboxCaller) (ss : StorageService) (e : Error)
    (h : acquirePrivKey env config = .error e) :
    NewDASWithSeqInboxCaller env config sic ss = .error e := by
  simp [NewDASWithSeqInboxCaller, h]

/-- Whatever key acquisition yields is the private key of the constructed
DAS. -/
theorem NewDAS_privKey_eq (env : KeyEnv) (config : StorageConfig)
    (sic : Option SequencerInboxCaller) (ss : StorageService) (k : PrivateKey)
    (h : acquirePrivKey env config = .ok k) :
    ∀ d, NewDASWithSeqInboxCaller env config sic ss = .ok d →
      d.privKey = k := by
  intro d hd
  unfold NewDASWithSeqInboxCaller at hd
  rw [h] at hd
  simp only [] at hd
  cases hpk : env.publicKeyFromPrivateKey k with
  | error e => rw [hpk] at hd; simp at hd
  | ok pk =>
    rw [hpk] at hd
    simp only [] at hd
    cases hser : env.serializeKeyset (dasKeyset pk) with
    | error e => rw [hser] at hd; simp at hd
    | ok ksBytes =>
      rw [hser] at hd
      simp only [] at hd
      cases hhash : env.hashKeyset (dasKeyset pk) with
      | error e => rw [hhash] at hd; simp at hd
      | ok ksHashBuf =>
        rw [hhash] at hd
        simp only [Except.ok.injEq] at hd
        rw [← hd]

/-- C8: the signing key is obtained from the inline `priv-key` value when it
is non-empty (construction fails when decoding fails), otherwise read from
the key directory; when the files do not exist it is generated only if
permitted by configuration, and otherwise — missing files with generation
disallowed, or any other read failure — construction fails and no DAS is
produced. -/
theorem das_construction_key_acquisition (env : KeyEnv)
    (config : StorageConfig) (sic : Option SequencerInboxCaller)
    (ss : StorageService) :
    (config.PrivKey.length ≠ 0 → ∀ e,
      env.decodeBase64BLSPrivateKey config.PrivKey = .error e →
      NewDASWithSeqInboxCaller env config sic ss =
        .error ("'priv-key' was invalid: " ++ e)) ∧
    (config.PrivKey.length ≠ 0 → ∀ k,
      env.decodeBase64BLSPrivateKey config.PrivKey = .ok k →
      ∀ d, NewDASWithSeqInboxCaller env config sic ss = .ok d →
        d.privKey = k) ∧
    (config.PrivKey.length = 0 → ∀ pk k,
      env.readKeysFromFile config.KeyDir = .ok (pk, k) →
      ∀ d, NewDASWithSeqInboxCaller env config sic ss = .ok d →
        d.privKey = k) ∧
    (config.PrivKey.length = 0 →
      env.readKeysFromFile config.KeyDir = .error .notExist →
      config.AllowGenerateKeys = true → ∀ pk k,
      env.generateAndStoreKeys config.KeyDir = .ok (pk, k) →
      ∀ d, NewDASWithSeqInboxCaller env config sic ss = .ok d →
        d.privKey = k) ∧
    (config.PrivKey.length = 0 →
      env.readKeysFromFile config.KeyDir = .error .notExist →
      config.AllowGenerateKeys = true → ∀ e,
      env.generateAndStoreKeys config.KeyDir = .error e →
      NewDASWithSeqInboxCaller env config sic ss = .error e) ∧
    (config.PrivKey.length = 0 →
      env.readKeysFromFile config.KeyDir = .error .notExist →
      config.AllowGenerateKeys = false →
      NewDASWithSeqInboxCaller env config sic ss =
        .error ("Required BLS keypair did not exist at " ++ config.KeyDir)) ∧
    (config.PrivKey.length = 0 → ∀ e,
      env.readKeysFromFile config.KeyDir = .error (.other e) →
      NewDASWithSeqInboxCaller env config sic ss = .error e) := by
  refine ⟨?_, ?_, ?_, ?_, ?_, ?_, ?_⟩
  · intro h e hdec
    exact NewDAS_of_acquire_error env config sic ss _
      (by simp [acquirePrivKey, h, hdec])
  · intro h k hdec
    exact NewDAS_privKey_eq env config sic ss k
      (by simp [acquirePrivKey, h, hdec])
  · intro h pk k hread
    exact NewDAS_privKey_eq env config sic ss k
      (by simp [acquirePrivKey, h, hread])
  · intro h hread hallow pk k hgen
    exact NewDAS_privKey_eq env config sic ss k
      (by simp [acquirePrivKey, h, hread, hallow, hgen])
  · intro h hread hallow e hgen
    exact NewDAS_of_acquire_error env config sic ss _
      (by simp [acquirePrivKey, h, hread, hallow, hgen])
  · intro h hread hallow
    exact NewDAS_of_acquire_error env config sic ss _
      (by simp [acquirePrivKey, h, hread, hallow])
  · intro h e hread
    exact NewDAS_of_acquire_error env config sic ss _
      (by simp [acquirePrivKey, h, hread])

/-- A key environment on which the key directory is empty (reads report
not-exist) and everything else succeeds. -/
def noKeyEnv : KeyEnv :=
  { decodeBase64BLSPrivateKey := fun _ => .ok 3,
    readKeysFromFile := fun _ => .error .notExist,
    generateAndStoreKeys := fun _ => .ok (4, 5),
    publicKeyFromPrivateKey := fun k => .ok (k + 1),
    serializeKeyset := fun ks => .ok ks.PubKeys,
    hashKeyset := fun ks => .ok ks.PubKeys }

/-- C8 witness: with no inline key, a missing keypair and generation
disallowed, construction fails with the missing-keypair error. -/
theorem das_construction_key_acquisition_witness :
    NewDASWithSeqInboxCaller noKeyEnv sampleConfig none sampleStorage =
      .error ("Required BLS keypair did not exist at " ++ "keys") :=
  (das_construction_key_acquisition noKeyEnv sampleConfig none
    sampleStorage).2.2.2.2.2.1 rfl rfl rfl

/-- Each Go method reads but never writes the receiver's fields. -/
theorem DAS.runOp_fst (env : CryptoEnv) (d : DAS) (op : DasOp) :
    (d.runOp env op).1 = d := by
  cases op <;> rfl

/-- C9: the DAS state is immutable after construction: any sequence of
operations leaves the DAS value (private key, keyset hash, keyset bytes,
configuration, verifier and storage-service reference) unchanged, and every
certificate issued along the way carries the one keyset hash fixed at
construction. -/
theorem das_state_immutable (env : CryptoEnv) (d : DAS) (ops : List DasOp) :
    (DAS.runOps env d ops).1 = d ∧
    (∀ r ∈ (DAS.runOps env d ops).2, ∀ c, r = .stored (.ok c) →
      c.KeysetHash = d.keysetHash) := by
  induction ops with
  | nil => exact ⟨rfl, by simp [DAS.runOps]⟩
  | cons op rest ih =>
    have hp : (d.runOp env op).1 = d := DAS.runOp_fst env d op
    constructor
    · show (DAS.runOps env (d.runOp env op).1 rest).1 = d
      rw [hp]; exact ih.1
    · intro r hr c hc
      have hr' : r ∈ (d.runOp env op).2 ::
          (DAS.runOps env (d.runOp env op).1 rest).2 := hr
      rw [hp] at hr'
      rcases List.mem_cons.mp hr' with h1 | h2
      · have hop : (d.runOp env op).2 = .stored (.ok c) := h1 ▸ hc
        cases op with
        | store m t s =>
          simp only [DAS.runOp, DasOpResult.stored.injEq] at hop
          obtain ⟨-, s', -, -, -, hcert⟩ :=
            DAS.store_ok_inversion env d m t s c hop
          rw [hcert]
        | getByHash h' => simp [DAS.runOp] at hop
        | keysetFromHash h' => simp [DAS.runOp] at hop
        | currentKeysetBytes => simp [DAS.runOp] at hop
        | healthCheck => simp [DAS.runOp] at hop
      · exact ih.2 r h2 c hc

/-- C9 witness: a concrete sequence of operations leaves `sampleDAS`
unchanged. -/
theorem das_state_immutable_witness :
    (DAS.runOps sampleCrypto sampleDAS
      [.store [1] 5 [], .getByHash [2], .keysetFromHash [3],
       .currentKeysetBytes, .healthCheck]).1 = sampleDAS :=
  (das_state_immutable sampleCrypto sampleDAS
    [.store [1] 5 [], .getByHash [2], .keysetFromHash [3],
     .currentKeysetBytes, .healthCheck]).1

end NitroDas
